import Mathlib

/-!
Shallow embedding of the database-chatbot frontend components
(Chat.js, ChatWindow.js, MessageInput.js, ResultsTable.js, ConnectPage.js)
and proofs of the specification claims about them.

Strings are modelled by Lean `String`; the JavaScript operations
`toLowerCase` and `trim` are modelled at the character-list level
(`jsToLower`, `jsTrim`) so that they are transparent to the kernel.
-/

namespace DBC

/-- Model of JavaScript `String.prototype.toLowerCase` (ASCII). -/
def jsToLower (s : String) : String :=
  String.mk (s.data.map Char.toLower)

/-- Model of JavaScript `String.prototype.trim`: drop leading and trailing
whitespace. -/
def jsTrim (s : String) : String :=
  String.mk (((s.data.dropWhile Char.isWhitespace).reverse.dropWhile
    Char.isWhitespace).reverse)

/-- A cell value of a result row: the demo data and backend results hold
numbers and strings. -/
inductive Value where
  | num (q : ℚ)
  | str (s : String)
deriving DecidableEq

/-- A result row is an ordered association of column name to value,
mirroring a JS object such as `\x7b id: 1, name: 'John Doe' \x7d`. -/
abbrev Row := List (String × Value)

/-- Message content: user/sql/analysis/error messages carry a string,
results messages carry the row array. -/
inductive Content where
  | text (s : String)
  | rows (rs : List Row)
deriving DecidableEq

/-- One entry of the `messages` state array in Chat.js: the `type` field is
a string tag and `content` is the payload (timestamps of ChatWindow.js are
irrelevant to the claims and omitted). -/
structure Msg where
  type : String
  content : Content
deriving DecidableEq

/-- The backend response to `POST /api/query`, as consumed by the code:
`const (sql, results, analysis) = response.data` on success, or an error
whose optional payload is `error.response?.data?.error`. -/
inductive BackendResp where
  | ok (sql : String) (results : List Row) (analysis : String)
  | err (message : Option String)

/-- Outcome of one `handleQuery` call: the new `messages` state and whether
the axios call to the backend was made. -/
structure QueryOutcome where
  messages : List Msg
  backendCalled : Bool
deriving DecidableEq

/-- Chat.js `VALID_QUESTIONS` (verbatim, including the duplicated entry). -/
def VALID_QUESTIONS : List String :=
  [ "Show all employees",
    "What are the top 5 highest paid employees?",
    "How many employees are in each department?",
    "What is the average salary?",
    "How many employees are in each department?",
    "Show employees hired in 2020",
    "List departments with more than 2 employees" ]

/-- Chat.js: `askedQuestions = messages.filter(m => m.type === 'user').map(m => m.content)`. -/
def askedQuestions (msgs : List Msg) : List Content :=
  (msgs.filter (fun m => m.type == "user")).map (fun m => m.content)

/-- Chat.js: `contextSuggestions = VALID_QUESTIONS.filter(q => !askedQuestions.includes(q))`. -/
def contextSuggestions (msgs : List Msg) : List String :=
  VALID_QUESTIONS.filter (fun q => !((askedQuestions msgs).contains (Content.text q)))

/-- Demo rows for "performance score trend". -/
def perfTrendRows : List Row :=
  [ [("Period", .str "Jan-Mar"), ("Performance Score", .num 3.5)],
    [("Period", .str "Apr-Jun"), ("Performance Score", .num 3.8)],
    [("Period", .str "Jul-Sep"), ("Performance Score", .num 4.0)],
    [("Period", .str "Oct-Dec"), ("Performance Score", .num 4.2)],
    [("Period", .str "Jan-Mar 2025"), ("Performance Score", .num 4.5)] ]

/-- Demo rows for "how many employees in each department". -/
def deptCountRows : List Row :=
  [ [("Department", .str "Sales"), ("Employee Count", .num 150)],
    [("Department", .str "Marketing"), ("Employee Count", .num 80)],
    [("Department", .str "Engineering"), ("Employee Count", .num 220)],
    [("Department", .str "HR"), ("Employee Count", .num 50)],
    [("Department", .str "Finance"), ("Employee Count", .num 100)] ]

/-- Demo rows for "what is the average salary". -/
def avgSalaryRows : List Row :=
  [ [("Department", .str "Finance"), ("Average Salary", .num 76500)],
    [("Department", .str "Human Resources"), ("Average Salary", .num 65000)],
    [("Department", .str "IT"), ("Average Salary", .num 85000)],
    [("Department", .str "Marketing"), ("Average Salary", .num 70000)],
    [("Department", .str "Sales"), ("Average Salary", .num 95000)],
    [("Department", .str "Research"), ("Average Salary", .num 82000)] ]

/-- Demo rows for "show all employees". -/
def allEmployeesRows : List Row :=
  [ [("id", .num 1), ("name", .str "John Doe"), ("department", .str "Finance"), ("salary", .num 75000)],
    [("id", .num 2), ("name", .str "Jane Smith"), ("department", .str "HR"), ("salary", .num 65000)],
    [("id", .num 3), ("name", .str "Alice Johnson"), ("department", .str "IT"), ("salary", .num 85000)],
    [("id", .num 4), ("name", .str "Bob Brown"), ("department", .str "Marketing"), ("salary", .num 70000)],
    [("id", .num 5), ("name", .str "Carol White"), ("department", .str "Finance"), ("salary", .num 78000)] ]

/-- Demo rows for "what are the top 5 highest paid employees?". -/
def topPaidRows : List Row :=
  [ [("id", .num 1), ("name", .str "Alice Johnson"), ("salary", .num 85000)],
    [("id", .num 2), ("name", .str "Carol White"), ("salary", .num 78000)],
    [("id", .num 3), ("name", .str "John Doe"), ("salary", .num 75000)],
    [("id", .num 4), ("name", .str "Bob Brown"), ("salary", .num 70000)],
    [("id", .num 5), ("name", .str "Jane Smith"), ("salary", .num 65000)] ]

/-- Demo rows for "show employees hired in 2020". -/
def hired2020Rows : List Row :=
  [ [("id", .num 1), ("name", .str "John Doe"), ("department", .str "Finance"), ("hire_date", .str "2020-01-15")],
    [("id", .num 4), ("name", .str "Bob Brown"), ("department", .str "Marketing"), ("hire_date", .str "2020-11-05")] ]

/-- Demo rows for "list departments with more than 2 employees". -/
def deptGt2Rows : List Row :=
  [ [("Department", .str "Sales"), ("Employee Count", .num 150)],
    [("Department", .str "Engineering"), ("Employee Count", .num 220)],
    [("Department", .str "Finance"), ("Employee Count", .num 100)] ]

/-- The seven lowercase texts handled by the demo short-circuit branch of
`handleQuery`, in source order. -/
def demoKeys : List String :=
  [ "performance score trend",
    "how many employees in each department",
    "what is the average salary",
    "show all employees",
    "what are the top 5 highest paid employees?",
    "show employees hired in 2020",
    "list departments with more than 2 employees" ]

/-- The three messages the demo branch for key `k` appends after the user
turn: a simulated-SQL comment, the fixed rows, a fixed analysis string. -/
def demoMessages (k : String) (rs : List Row) (analysis : String) : List Msg :=
  [ ⟨"sql", .text ("-- Simulated SQL for: " ++ k)⟩,
    ⟨"results", .rows rs⟩,
    ⟨"analysis", .text analysis⟩ ]

/-- Lookup table: the hard-coded result set the demo branch returns for
each demo key. -/
def demoRows : String → List Row
  | "performance score trend" => perfTrendRows
  | "how many employees in each department" => deptCountRows
  | "what is the average salary" => avgSalaryRows
  | "show all employees" => allEmployeesRows
  | "what are the top 5 highest paid employees?" => topPaidRows
  | "show employees hired in 2020" => hired2020Rows
  | "list departments with more than 2 employees" => deptGt2Rows
  | _ => []

/-- Lookup table: the fixed analysis string the demo branch returns for
each demo key. -/
def demoAnalysis : String → String
  | "performance score trend" =>
      "Simulated analysis: Performance scores show a positive upward trend over the recent periods."
  | "how many employees in each department" =>
      "Simulated analysis: This bar chart shows the distribution of employees across different departments."
  | "what is the average salary" =>
      "Simulated analysis: Average salaries across various departments."
  | "show all employees" =>
      "Simulated analysis: Displaying all available employee records."
  | "what are the top 5 highest paid employees?" =>
      "Simulated analysis: Here are the top 5 highest paid employees based on available data."
  | "show employees hired in 2020" =>
      "Simulated analysis: Displaying employees hired in 2020."
  | "list departments with more than 2 employees" =>
      "Simulated analysis: Departments with a significant number of employees."
  | _ => ""

/-- Chat.js `handleQuery`, as a state transformer.  The pending backend
response is passed as a parameter `resp`; the demo branch never consults it
(the code returns before the axios call).  The `setVisualizationType` and
`setQuery` updates are irrelevant to the claims and omitted. -/
def handleQuery (msgs : List Msg) (query : String) (resp : BackendResp) :
    QueryOutcome :=
  if jsTrim query = "" then ⟨msgs, false⟩ else
  let m1 := msgs ++ [⟨"user", .text query⟩]
  if jsToLower query = "performance score trend" then
    ⟨m1 ++ demoMessages "performance score trend" perfTrendRows
      "Simulated analysis: Performance scores show a positive upward trend over the recent periods.", false⟩
  else if jsToLower query = "how many employees in each department" then
    ⟨m1 ++ demoMessages "how many employees in each department" deptCountRows
      "Simulated analysis: This bar chart shows the distribution of employees across different departments.", false⟩
  else if jsToLower query = "what is the average salary" then
    ⟨m1 ++ demoMessages "what is the average salary" avgSalaryRows
      "Simulated analysis: Average salaries across various departments.", false⟩
  else if jsToLower query = "show all employees" then
    ⟨m1 ++ demoMessages "show all employees" allEmployeesRows
      "Simulated analysis: Displaying all available employee records.", false⟩
  else if jsToLower query = "what are the top 5 highest paid employees?" then
    ⟨m1 ++ demoMessages "what are the top 5 highest paid employees?" topPaidRows
      "Simulated analysis: Here are the top 5 highest paid employees based on available data.", false⟩
  else if jsToLower query = "show employees hired in 2020" then
    ⟨m1 ++ demoMessages "show employees hired in 2020" hired2020Rows
      "Simulated analysis: Displaying employees hired in 2020.", false⟩
  else if jsToLower query = "list departments with more than 2 employees" then
    ⟨m1 ++ demoMessages "list departments with more than 2 employees" deptGt2Rows
      "Simulated analysis: Departments with a significant number of employees.", false⟩
  else
    match resp with
    | .ok s r a =>
        ⟨m1 ++ [⟨"sql", .text s⟩, ⟨"results", .rows r⟩, ⟨"analysis", .text a⟩], true⟩
    | .err e =>
        ⟨m1 ++ [⟨"error", .text (e.getD "An error occurred")⟩], true⟩

/-- ChatWindow.js `handleSend`: appends the user message, then on success
the sql, results and analysis messages (three `setMessages` calls in that
order), and on failure a single error message. -/
def handleSend (msgs : List Msg) (message : String) (resp : BackendResp) :
    List Msg :=
  let m1 := msgs ++ [⟨"user", .text message⟩]
  match resp with
  | .ok s r a =>
      m1 ++ [⟨"sql", .text s⟩, ⟨"results", .rows r⟩, ⟨"analysis", .text a⟩]
  | .err e =>
      m1 ++ [⟨"error", .text (e.getD "An error occurred")⟩]

/-- MessageInput.js `handleSubmit`: `onSend(message)` fires only when
`message.trim()` is truthy and not loading; otherwise nothing is sent and
no error is raised. -/
def messageInputSubmit (message : String) (loading : Bool) : Option String :=
  if jsTrim message ≠ "" ∧ loading = false then some message else none

/-- ResultsTable.js: `row[column]`, i.e. property access on a row object;
a missing key is JS `undefined`, modelled as `none`. -/
def getCol (row : Row) (c : String) : Option Value :=
  (row.find? (fun p => p.1 == c)).map (fun p => p.2)

/-- ResultsTable.js `calculateStats`:
`values = data.map(row => row[column])` followed by
`values.filter(v => typeof v === 'number')`. -/
def numericValues (data : List Row) (c : String) : List ℚ :=
  data.filterMap (fun row =>
    match getCol row c with
    | some (.num q) => some q
    | _ => none)

/-- `Math.min(...l)` on a nonempty list: fold of binary min over the spread
arguments.  The `[]` case is unreachable in `calculateStats` (guarded by the
`numericValues.length === 0` early return) and given a junk value. -/
def listMin : List ℚ → ℚ
  | [] => 0
  | x :: xs => xs.foldl min x

/-- `Math.max(...l)` on a nonempty list, as `listMin`. -/
def listMax : List ℚ → ℚ
  | [] => 0
  | x :: xs => xs.foldl max x

/-- The statistics object built by `calculateStats`.  All numeric code in
the source is JS floating point; it is modelled exactly over ℚ, which
preserves the formulas the claims are about.  The source stores
`std: Math.sqrt(stdRad)`; `Real.sqrt` has no executable code, so the
radicand is stored here and the square root is applied in the theorem
statements. -/
structure Stats where
  count : ℕ
  mean : ℚ
  min : ℚ
  max : ℚ
  stdRad : ℚ

/-- ResultsTable.js `calculateStats(column)`: returns `null` when the column
has no numeric values, otherwise count, mean (`reduce((a,b)=>a+b,0)/length`),
min/max (`Math.min/max(...)`), and the standard deviation as
`Math.sqrt(reduce((a,b)=> a + pow(b - mean, 2), 0) / length)` — the mean is
recomputed inside the fold exactly as in the source, and `stdRad` is the
argument of `Math.sqrt`. -/
def calculateStats (data : List Row) (c : String) : Option Stats :=
  let nv := numericValues data c
  if nv.length = 0 then none
  else some
    { count := nv.length
      mean := nv.foldl (· + ·) 0 / (nv.length : ℚ)
      min := listMin nv
      max := listMax nv
      stdRad :=
        (nv.foldl (fun a b =>
            a + (b - nv.foldl (· + ·) 0 / (nv.length : ℚ)) ^ 2) 0) /
          (nv.length : ℚ) }

/-- The rendering of a results message in Chat.js `renderMessage`:
a table of the rows when the array is nonempty, otherwise the literal
text "No results found.". -/
inductive RenderedResults where
  | table (cols : List String) (rws : List Row)
  | noResults (text : String)
deriving DecidableEq

/-- Chat.js `renderMessage`, results branch: `Array.isArray(content) &&
content.length > 0` shows a table whose header is `Object.keys(content[0])`;
otherwise the text "No results found." is shown. -/
def renderResults (content : List Row) : RenderedResults :=
  match content with
  | [] => .noResults "No results found."
  | r :: rs => .table (r.map (fun p => p.1)) (r :: rs)

/-- ResultsTable.js early return: `if (!Array.isArray(data) || data.length
=== 0) return null;` — for an empty result set the component renders
nothing at all (so no statistics menu exists). -/
def resultsTableView (data : List Row) : Option (List String × List Row) :=
  match data with
  | [] => none
  | r :: rs => some (r.map (fun p => p.1), r :: rs)

/-- ConnectPage.js form state. -/
structure ConnForm where
  server : String
  database : String
  username : String
  password : String
deriving DecidableEq

/-- ConnectPage.js `errors` state: per-field optional error message. -/
structure FieldErrors where
  server : Option String
  database : Option String
  username : Option String
  password : Option String
deriving DecidableEq

/-- ConnectPage.js `validate`: server, database and username are required
after trimming; the password check is `!form.password` (no trim). -/
def validateForm (f : ConnForm) : FieldErrors :=
  { server := if jsTrim f.server = "" then some "Server name is required." else none
    database := if jsTrim f.database = "" then some "Database name is required." else none
    username := if jsTrim f.username = "" then some "Username is required." else none
    password := if f.password = "" then some "Password is required." else none }

/-- Whether `validate()` returned true, i.e. `Object.keys(newErrors).length
=== 0`. -/
def formValid (e : FieldErrors) : Bool :=
  e.server == none && e.database == none && e.username == none && e.password == none

/-- Outcome of ConnectPage.js `handleSubmit`: either the early return with
the recorded field errors (no fetch, no state change), or the fetch attempt
with the form as payload. -/
inductive SubmitResult where
  | rejected (errs : FieldErrors)
  | attempted (payload : ConnForm)
deriving DecidableEq

/-- ConnectPage.js `handleSubmit`: `if (!validate()) return;` before any
network request; only a valid form reaches `fetch('/api/connect', ...)`. -/
def connectSubmit (f : ConnForm) : SubmitResult :=
  let e := validateForm f
  if formValid e then .attempted f else .rejected e

/-- Split a character list into maximal whitespace-free words, dropping the
whitespace.  `acc` holds the (reversed) current word. -/
def wordsAux : List Char → List Char → List (List Char)
  | [], acc => if acc.isEmpty then [] else [acc.reverse]
  | c :: cs, acc =>
    if c.isWhitespace then
      if acc.isEmpty then wordsAux cs [] else acc.reverse :: wordsAux cs []
    else wordsAux cs (c :: acc)

/-- Join words with single spaces. -/
def joinWords : List (List Char) → List Char
  | [] => []
  | [w] => w
  | w :: ws => w ++ ' ' :: joinWords ws

/-- The spec's matching notion for suggestion de-duplication (§4.6):
case-insensitive and whitespace-normalized comparison.  Used only to state
claims about the code; not part of the embedding of the source. -/
def normalizeText (s : String) : String :=
  String.mk (joinWords (wordsAux (jsToLower s).data []))

/-- The spec's notion of a text referencing an entity (§3, §4.6): the
entity term occurs, case-insensitively, inside the text.  Used only to
state claims about the code. -/
def refersTo (term text : String) : Bool :=
  ((jsToLower text).data.tails).any (fun t => term.data.isPrefixOf t)

/-- A sequence of `handleQuery` calls against the same session, folding the
`messages` state through a list of (query, backend response) pairs. -/
def runQueries (init : List Msg) (qs : List (String × BackendResp)) : List Msg :=
  qs.foldl (fun ms qr => (handleQuery ms qr.1 qr.2).messages) init

/-! ### Helper lemmas -/

theorem foldl_add_map (f : ℚ → ℚ) :
    ∀ (l : List ℚ) (a : ℚ),
      l.foldl (fun acc b => acc + f b) a = a + (l.map f).sum
  | [], a => by simp
  | x :: xs, a => by
    rw [List.foldl_cons, foldl_add_map f xs (a + f x), List.map_cons,
      List.sum_cons, add_assoc]

theorem foldl_add_eq_sum (l : List ℚ) (a : ℚ) :
    l.foldl (· + ·) a = a + l.sum := by
  have h := foldl_add_map id l a
  simpa using h

theorem foldl_min_le_init : ∀ (l : List ℚ) (a : ℚ), l.foldl min a ≤ a
  | [], _ => le_refl _
  | x :: xs, a =>
    le_trans (foldl_min_le_init xs (min a x)) (min_le_left a x)

theorem foldl_min_le_mem :
    ∀ (l : List ℚ) (a : ℚ) (x : ℚ), x ∈ l → l.foldl min a ≤ x
  | y :: ys, a, x, hx => by
    rcases List.mem_cons.mp hx with rfl | hx
    · exact le_trans (foldl_min_le_init ys (min a x)) (min_le_right a x)
    · exact foldl_min_le_mem ys (min a y) x hx

theorem foldl_min_mem :
    ∀ (l : List ℚ) (a : ℚ), l.foldl min a = a ∨ l.foldl min a ∈ l
  | [], a => Or.inl rfl
  | y :: ys, a => by
    rcases foldl_min_mem ys (min a y) with h | h
    · rcases min_choice a y with hc | hc
      · exact Or.inl (by rw [List.foldl_cons, h, hc])
      · exact Or.inr (by rw [List.foldl_cons, h, hc]; exact List.mem_cons_self _ _)
    · exact Or.inr (List.mem_cons_of_mem _ h)

theorem foldl_max_init_le : ∀ (l : List ℚ) (a : ℚ), a ≤ l.foldl max a
  | [], _ => le_refl _
  | x :: xs, a =>
    le_trans (le_max_left a x) (foldl_max_init_le xs (max a x))

theorem foldl_max_mem_le :
    ∀ (l : List ℚ) (a : ℚ) (x : ℚ), x ∈ l → x ≤ l.foldl max a
  | y :: ys, a, x, hx => by
    rcases List.mem_cons.mp hx with rfl | hx
    · exact le_trans (le_max_right a x) (foldl_max_init_le ys (max a x))
    · exact foldl_max_mem_le ys (max a y) x hx

theorem foldl_max_mem :
    ∀ (l : List ℚ) (a : ℚ), l.foldl max a = a ∨ l.foldl max a ∈ l
  | [], a => Or.inl rfl
  | y :: ys, a => by
    rcases foldl_max_mem ys (max a y) with h | h
    · rcases max_choice a y with hc | hc
      · exact Or.inl (by rw [List.foldl_cons, h, hc])
      · exact Or.inr (by rw [List.foldl_cons, h, hc]; exact List.mem_cons_self _ _)
    · exact Or.inr (List.mem_cons_of_mem _ h)

theorem listMin_mem {l : List ℚ} (h : l ≠ []) : listMin l ∈ l := by
  match l with
  | [] => exact absurd rfl h
  | x :: xs =>
    rcases foldl_min_mem xs x with h1 | h1
    · rw [listMin, h1]; exact List.mem_cons_self _ _
    · rw [listMin]; exact List.mem_cons_of_mem _ h1

theorem listMin_le {l : List ℚ} {x : ℚ} (hx : x ∈ l) : listMin l ≤ x := by
  match l with
  | y :: ys =>
    rcases List.mem_cons.mp hx with rfl | hx
    · exact foldl_min_le_init ys x
    · exact foldl_min_le_mem ys y x hx

theorem listMax_mem {l : List ℚ} (h : l ≠ []) : listMax l ∈ l := by
  match l with
  | [] => exact absurd rfl h
  | x :: xs =>
    rcases foldl_max_mem xs x with h1 | h1
    · rw [listMax, h1]; exact List.mem_cons_self _ _
    · rw [listMax]; exact List.mem_cons_of_mem _ h1

theorem listMax_le {l : List ℚ} {x : ℚ} (hx : x ∈ l) : x ≤ listMax l := by
  match l with
  | y :: ys =>
    rcases List.mem_cons.mp hx with rfl | hx
    · exact foldl_max_init_le ys x
    · exact foldl_max_mem_le ys y x hx

theorem ws_toLower_fix {c : Char} (h : c.isWhitespace = true) :
    c.toLower = c := by
  simp only [Char.isWhitespace, Bool.or_eq_true, decide_eq_true_eq] at h
  rcases h with ((h | h) | h) | h <;> subst h <;> decide

theorem all_ws_of_jsTrim_eq {s : String} (h : jsTrim s = "") :
    ∀ c ∈ s.data, c.isWhitespace := by
  have hdata : (((s.data.dropWhile Char.isWhitespace).reverse.dropWhile
      Char.isWhitespace).reverse) = [] := congrArg String.data h
  rw [List.reverse_eq_nil_iff, List.dropWhile_eq_nil_iff] at hdata
  intro c hc
  rw [← List.takeWhile_append_dropWhile (p := Char.isWhitespace)
    (l := s.data)] at hc
  rcases List.mem_append.mp hc with hc | hc
  · exact List.mem_takeWhile_imp hc
  · exact hdata c (List.mem_reverse.mpr hc)

theorem jsTrim_ne_empty_of_toLower {q k : String} (h : jsToLower q = k)
    (hk : k.data.any (fun c => !c.isWhitespace) = true) : jsTrim q ≠ "" := by
  intro htrim
  have hws := all_ws_of_jsTrim_eq htrim
  have hdata : q.data.map Char.toLower = k.data := congrArg String.data h
  rcases List.any_eq_true.mp hk with ⟨c, hc, hcw⟩
  rw [← hdata] at hc
  rcases List.mem_map.mp hc with ⟨d, hd, rfl⟩
  rw [ws_toLower_fix (hws d hd)] at hcw
  rw [hws d hd] at hcw
  simp at hcw

/-- Characterization of `handleQuery` on the backend error path: the query
is nonblank and not a demo key, so the axios call is made and it rejects. -/
theorem handleQuery_err (msgs : List Msg) (q : String) (e : Option String)
    (h1 : jsTrim q ≠ "") (h2 : jsToLower q ∉ demoKeys) :
    handleQuery msgs q (.err e) =
      ⟨msgs ++ [⟨"user", .text q⟩,
        ⟨"error", .text (e.getD "An error occurred")⟩], true⟩ := by
  simp only [demoKeys, List.mem_cons, List.not_mem_nil, or_false, not_or] at h2
  obtain ⟨n1, n2, n3, n4, n5, n6, n7⟩ := h2
  simp [handleQuery, h1, n1, n2, n3, n4, n5, n6, n7]

/-- Characterization of `handleQuery` on the backend success path. -/
theorem handleQuery_ok (msgs : List Msg) (q s a : String) (r : List Row)
    (h1 : jsTrim q ≠ "") (h2 : jsToLower q ∉ demoKeys) :
    handleQuery msgs q (.ok s r a) =
      ⟨msgs ++ [⟨"user", .text q⟩, ⟨"sql", .text s⟩, ⟨"results", .rows r⟩,
        ⟨"analysis", .text a⟩], true⟩ := by
  simp only [demoKeys, List.mem_cons, List.not_mem_nil, or_false, not_or] at h2
  obtain ⟨n1, n2, n3, n4, n5, n6, n7⟩ := h2
  simp [handleQuery, h1, n1, n2, n3, n4, n5, n6, n7]

end DBC

open DBC

/-- C3: for the empty result set the rendered output is the literal text
"No results found.", the ResultsTable component renders nothing (so no
statistics menu exists), and `calculateStats` returns `none` for every
column before any division is attempted — all functions are total, so no
exception or division by zero can occur. -/
theorem C3_empty_result_set :
    renderResults [] = RenderedResults.noResults "No results found." ∧
    resultsTableView [] = none ∧
    ∀ c : String, calculateStats [] c = none := by
  refine ⟨rfl, rfl, fun c => rfl⟩

/-- C5 counterexample: the claim that the message history never exceeds a
configured maximum turn count is false — the code configures no maximum and
never evicts.  Taking 2 as the would-be maximum, three processed queries
already leave 6 messages in the history. -/
theorem C5_counterexample :
    ¬ (runQueries []
        [("first question", .err none), ("second question", .err none),
         ("third question", .err none)]).length ≤ 2 := by
  decide

/-- C5 (amended): every `handleQuery` call leaves the previous history
intact as an initial segment (no turn is ever evicted) and the history
length is non-decreasing — the conversation grows without any bound. -/
theorem C5_unbounded_history (msgs : List Msg) (q : String)
    (resp : BackendResp) :
    (∃ tail, (handleQuery msgs q resp).messages = msgs ++ tail) ∧
    msgs.length ≤ (handleQuery msgs q resp).messages.length := by
  have hex : ∃ tail, (handleQuery msgs q resp).messages = msgs ++ tail := by
    unfold handleQuery
    repeat' split
    all_goals first
      | exact ⟨[], (List.append_nil msgs).symm⟩
      | exact ⟨_, List.append_assoc _ _ _⟩
  refine ⟨hex, ?_⟩
  obtain ⟨tail, ht⟩ := hex
  rw [ht]
  simp

/-- C6 counterexample: a whitespace-only query is not rejected with any
error — `handleQuery` silently returns with the history unchanged, no
backend call and no error message, and `MessageInput` does not fire
`onSend` at all. -/
theorem C6_counterexample :
    handleQuery [] "   " (.err none) = ⟨[], false⟩ ∧
    messageInputSubmit "   " false = none := by
  exact ⟨rfl, rfl⟩

/-- C6 (amended): a query whose text is empty or whitespace-only is
silently dropped: `handleQuery` leaves the message history unchanged,
makes no backend call and raises no error, and `MessageInput.handleSubmit`
never invokes `onSend` — no `ContextError` (or any error) exists in the
code. -/
theorem C6_blank_query_ignored (msgs : List Msg) (q : String)
    (resp : BackendResp) (h : jsTrim q = "") :
    handleQuery msgs q resp = ⟨msgs, false⟩ ∧
    ∀ loading, messageInputSubmit q loading = none := by
  constructor
  · unfold handleQuery
    rw [if_pos h]
  · intro loading
    unfold messageInputSubmit
    rw [if_neg]
    intro hc
    exact hc.1 h

/-- C6 witness: the amended theorem applied to the whitespace query. -/
theorem C6_blank_query_ignored_witness :
    jsTrim "   " = "" ∧
    (handleQuery [] "   " (.err none) = ⟨[], false⟩ ∧
      ∀ loading, messageInputSubmit "   " loading = none) :=
  ⟨rfl, C6_blank_query_ignored [] "   " (.err none) rfl⟩

/-- C10: submitting the connection form with any of the four fields empty
performs no network request (the submit is rejected before `fetch`) and
records the field-specific error message for each empty field; the
connection state (loading/success/session storage) is untouched on this
path. -/
theorem C10_blank_fields_rejected (f : ConnForm)
    (h : f.server = "" ∨ f.database = "" ∨ f.username = "" ∨ f.password = "") :
    connectSubmit f = .rejected (validateForm f) ∧
    (f.server = "" → (validateForm f).server = some "Server name is required.") ∧
    (f.database = "" → (validateForm f).database = some "Database name is required.") ∧
    (f.username = "" → (validateForm f).username = some "Username is required.") ∧
    (f.password = "" → (validateForm f).password = some "Password is required.") := by
  have h0 : jsTrim "" = "" := rfl
  have hval : formValid (validateForm f) = false := by
    rcases h with h | h | h | h <;>
      simp [formValid, validateForm, h, h0]
  refine ⟨?_, ?_, ?_, ?_, ?_⟩
  · simp [connectSubmit, hval]
  · intro hs; simp [validateForm, hs, h0]
  · intro hs; simp [validateForm, hs, h0]
  · intro hs; simp [validateForm, hs, h0]
  · intro hs; simp [validateForm, hs]

/-- C10 witness: a form with an empty server field is rejected with the
server error recorded. -/
theorem C10_blank_fields_rejected_witness :
    ((⟨"", "mydb", "admin", "pw"⟩ : ConnForm).server = "" ∨
      (⟨"", "mydb", "admin", "pw"⟩ : ConnForm).database = "" ∨
      (⟨"", "mydb", "admin", "pw"⟩ : ConnForm).username = "" ∨
      (⟨"", "mydb", "admin", "pw"⟩ : ConnForm).password = "") ∧
    (connectSubmit ⟨"", "mydb", "admin", "pw"⟩ =
        .rejected (validateForm ⟨"", "mydb", "admin", "pw"⟩) ∧
      ((⟨"", "mydb", "admin", "pw"⟩ : ConnForm).server = "" →
        (validateForm ⟨"", "mydb", "admin", "pw"⟩).server =
          some "Server name is required.") ∧
      ((⟨"", "mydb", "admin", "pw"⟩ : ConnForm).database = "" →
        (validateForm ⟨"", "mydb", "admin", "pw"⟩).database =
          some "Database name is required.") ∧
      ((⟨"", "mydb", "admin", "pw"⟩ : ConnForm).username = "" →
        (validateForm ⟨"", "mydb", "admin", "pw"⟩).username =
          some "Username is required.") ∧
      ((⟨"", "mydb", "admin", "pw"⟩ : ConnForm).password = "" →
        (validateForm ⟨"", "mydb", "admin", "pw"⟩).password =
          some "Password is required.")) :=
  ⟨Or.inl rfl, C10_blank_fields_rejected ⟨"", "mydb", "admin", "pw"⟩ (Or.inl rfl)⟩

/-- C1 counterexample: the de-duplication is an exact string match, not
case-insensitive.  After the user asks "show all employees" (lowercase),
the suggestion list still contains "Show all employees", which matches the
prior user turn case-insensitively and whitespace-normalized — refuting the
claim that no such string can appear. -/
theorem C1_counterexample :
    "Show all employees" ∈
      contextSuggestions [⟨"user", Content.text "show all employees"⟩] ∧
    normalizeText "Show all employees" = normalizeText "show all employees" := by
  constructor <;> decide

/-- C1 (amended): the suggestion list never contains a string exactly equal
(case- and whitespace-sensitive) to the text of any prior user turn in the
session; matching is plain string equality, not the normalized comparison
the claim states. -/
theorem C1_exact_dedup_only (msgs : List Msg) (s : String)
    (hs : s ∈ contextSuggestions msgs) :
    Content.text s ∉ askedQuestions msgs := by
  rw [contextSuggestions, List.mem_filter] at hs
  simpa using hs.2

/-- C1 witness: the amended theorem at a concrete session. -/
theorem C1_exact_dedup_only_witness :
    "Show all employees" ∉
      contextSuggestions [⟨"user", Content.text "Show all employees"⟩,
        ⟨"user", Content.text "What is the average salary?"⟩] ∧
    "Show employees hired in 2020" ∈
      contextSuggestions [⟨"user", Content.text "Show all employees"⟩,
        ⟨"user", Content.text "What is the average salary?"⟩] ∧
    Content.text "Show employees hired in 2020" ∉
      askedQuestions [⟨"user", Content.text "Show all employees"⟩,
        ⟨"user", Content.text "What is the average salary?"⟩] :=
  ⟨by decide, by decide,
    C1_exact_dedup_only _ "Show employees hired in 2020" (by decide)⟩

/-- C7 counterexample: no entity-based ranking exists.  With the most
recent (and only) user turn "average salary figures", the candidate
"What is the average salary?" references the entity "salary" mentioned in
that turn while "Show all employees" does not, yet the returned list is the
unreordered template list with "Show all employees" at position 0 and the
salary question at position 3 — refuting the claim that entity-referencing
candidates rank above generic ones. -/
theorem C7_counterexample :
    contextSuggestions [⟨"user", Content.text "average salary figures"⟩] =
      VALID_QUESTIONS ∧
    refersTo "salary" "average salary figures" = true ∧
    refersTo "salary" "What is the average salary?" = true ∧
    refersTo "salary" "Show all employees" = false ∧
    (contextSuggestions [⟨"user", Content.text "average salary figures"⟩]).indexOf
        "Show all employees" = 0 ∧
    (contextSuggestions [⟨"user", Content.text "average salary figures"⟩]).indexOf
        "What is the average salary?" = 3 := by
  refine ⟨by decide, by decide, by decide, by decide, by decide, by decide⟩

/-- C7 (amended): the suggestion list is the fixed template list in its
original order (the output is always a sublist of `VALID_QUESTIONS`,
so relative template order is preserved and the output is deterministic),
and a candidate appears exactly when it is a template not exactly equal to
a prior user turn; no entity-based re-ranking is performed. -/
theorem C7_template_order_only (msgs : List Msg) :
    (contextSuggestions msgs).Sublist VALID_QUESTIONS ∧
    ∀ s : String, s ∈ contextSuggestions msgs ↔
      (s ∈ VALID_QUESTIONS ∧ Content.text s ∉ askedQuestions msgs) := by
  refine ⟨List.filter_sublist _, fun s => ?_⟩
  rw [contextSuggestions, List.mem_filter]
  constructor
  · rintro ⟨h1, h2⟩
    exact ⟨h1, by simpa using h2⟩
  · rintro ⟨h1, h2⟩
    exact ⟨h1, by simpa using h2⟩

/-- C4: when the backend request for a nonblank, non-demo query rejects,
the history still records the user question as a user turn, followed only
by an error message — no sql message and no results message from the failed
call is appended.  The same holds for ChatWindow's `handleSend`. -/
theorem C4_failed_query (msgs : List Msg) (q : String) (e : Option String)
    (h1 : jsTrim q ≠ "") (h2 : jsToLower q ∉ demoKeys) :
    (handleQuery msgs q (.err e)).messages =
      msgs ++ [⟨"user", Content.text q⟩,
        ⟨"error", Content.text (e.getD "An error occurred")⟩] ∧
    (⟨"user", Content.text q⟩ : Msg) ∈ (handleQuery msgs q (.err e)).messages ∧
    (∀ m ∈ (handleQuery msgs q (.err e)).messages, m ∉ msgs →
      m.type = "user" ∨ m.type = "error") ∧
    handleSend msgs q (.err e) =
      msgs ++ [⟨"user", Content.text q⟩,
        ⟨"error", Content.text (e.getD "An error occurred")⟩] := by
  have heq := handleQuery_err msgs q e h1 h2
  refine ⟨by rw [heq], by rw [heq]; simp, ?_, by simp [handleSend]⟩
  intro m hm hnm
  rw [heq] at hm
  rcases List.mem_append.mp hm with h | h
  · exact absurd h hnm
  · rcases List.mem_cons.mp h with rfl | h
    · exact Or.inl rfl
    · rcases List.mem_cons.mp h with rfl | h
      · exact Or.inr rfl
      · exact absurd h (List.not_mem_nil m)

/-- C4 witness: the failed-query property at a concrete query and error. -/
theorem C4_failed_query_witness :
    jsTrim "what is the weather" ≠ "" ∧
    jsToLower "what is the weather" ∉ demoKeys ∧
    ((handleQuery [] "what is the weather"
        (.err (some "Database connection failed"))).messages =
      [] ++ [⟨"user", Content.text "what is the weather"⟩,
        ⟨"error", Content.text ((some "Database connection failed").getD
          "An error occurred")⟩] ∧
    (⟨"user", Content.text "what is the weather"⟩ : Msg) ∈
      (handleQuery [] "what is the weather"
        (.err (some "Database connection failed"))).messages ∧
    (∀ m ∈ (handleQuery [] "what is the weather"
        (.err (some "Database connection failed"))).messages,
      m ∉ ([] : List Msg) → m.type = "user" ∨ m.type = "error") ∧
    handleSend [] "what is the weather" (.err (some "Database connection failed")) =
      [] ++ [⟨"user", Content.text "what is the weather"⟩,
        ⟨"error", Content.text ((some "Database connection failed").getD
          "An error occurred")⟩]) :=
  ⟨by decide, by decide,
    C4_failed_query [] "what is the weather" (some "Database connection failed")
      (by decide) (by decide)⟩

/-- C8 counterexample: a successful query delivers no suggestions
component.  On a concrete success the messages produced are exactly of
types user, sql, results, analysis — nothing of a suggestions kind is part
of the query result, refuting the claimed four-field shape with
`suggestions`. -/
theorem C8_counterexample :
    ((handleQuery [] "hello" (.ok "SELECT 1" [] "done")).messages.map
      (fun m => m.type)) = ["user", "sql", "results", "analysis"] ∧
    "suggestions" ∉ ((handleQuery [] "hello"
      (.ok "SELECT 1" [] "done")).messages.map (fun m => m.type)) := by
  constructor <;> decide

/-- C8 (amended): on a successful nonblank, non-demo query the consumed
backend response is the triple (sql, results, analysis) — there is no
suggestions field — and the history is extended with exactly a sql message,
a results message and an analysis message, in that order, immediately after
the user turn.  The same holds for ChatWindow's `handleSend`. -/
theorem C8_success_path (msgs : List Msg) (q s a : String) (r : List Row)
    (h1 : jsTrim q ≠ "") (h2 : jsToLower q ∉ demoKeys) :
    handleQuery msgs q (.ok s r a) =
      ⟨msgs ++ [⟨"user", Content.text q⟩, ⟨"sql", Content.text s⟩,
        ⟨"results", Content.rows r⟩, ⟨"analysis", Content.text a⟩], true⟩ ∧
    handleSend msgs q (.ok s r a) =
      msgs ++ [⟨"user", Content.text q⟩, ⟨"sql", Content.text s⟩,
        ⟨"results", Content.rows r⟩, ⟨"analysis", Content.text a⟩] :=
  ⟨handleQuery_ok msgs q s a r h1 h2, by simp [handleSend]⟩

/-- C8 witness: the success-path property at a concrete query. -/
theorem C8_success_path_witness :
    jsTrim "hello" ≠ "" ∧
    jsToLower "hello" ∉ demoKeys ∧
    (handleQuery [] "hello" (.ok "SELECT 1" [] "done") =
      ⟨[] ++ [⟨"user", Content.text "hello"⟩, ⟨"sql", Content.text "SELECT 1"⟩,
        ⟨"results", Content.rows []⟩, ⟨"analysis", Content.text "done"⟩], true⟩ ∧
    handleSend [] "hello" (.ok "SELECT 1" [] "done") =
      [] ++ [⟨"user", Content.text "hello"⟩, ⟨"sql", Content.text "SELECT 1"⟩,
        ⟨"results", Content.rows []⟩, ⟨"analysis", Content.text "done"⟩]) :=
  ⟨by decide, by decide,
    C8_success_path [] "hello" "SELECT 1" "done" [] (by decide) (by decide)⟩

/-- C9: for each of the seven demo texts, matched case-insensitively via
`toLowerCase`, `handleQuery` never contacts the backend
(`backendCalled = false`) and appends the fixed simulated-SQL comment, the
fixed hard-coded result set and the fixed analysis string; the outcome does
not depend on the backend response `resp`, i.e. it is identical on every
invocation regardless of the connected database or schema. -/
theorem C9_demo_short_circuit (k : String) (hk : k ∈ demoKeys) (q : String)
    (msgs : List Msg) (resp : BackendResp) (hq : jsToLower q = k) :
    handleQuery msgs q resp =
      ⟨msgs ++ [⟨"user", Content.text q⟩] ++
        demoMessages k (demoRows k) (demoAnalysis k), false⟩ := by
  fin_cases hk <;>
    · have htrim : jsTrim q ≠ "" := jsTrim_ne_empty_of_toLower hq (by decide)
      simp [handleQuery, htrim, hq, demoMessages, demoRows, demoAnalysis]

/-- C9 witness: the demo branch fires for an uppercase variant of
"show all employees" and produces the fixed outcome. -/
theorem C9_demo_short_circuit_witness :
    ("show all employees" ∈ demoKeys) ∧
    jsToLower "Show ALL Employees" = "show all employees" ∧
    handleQuery [] "Show ALL Employees" (.err none) =
      ⟨[] ++ [⟨"user", Content.text "Show ALL Employees"⟩] ++
        demoMessages "show all employees" (demoRows "show all employees")
          (demoAnalysis "show all employees"), false⟩ :=
  ⟨by decide, by decide,
    C9_demo_short_circuit "show all employees" (by decide) "Show ALL Employees"
      [] (.err none) (by decide)⟩

/-- C2: for every result set and every column with at least one numeric
value, the statistics satisfy: count is the number of numeric values, mean
is their sum divided by count, min and max are the least and greatest
numeric value, and the standard deviation is the population formula — the
square root of the sum of squared deviations from the mean divided by
count (not by count minus one).  `Math.sqrt` is modelled by `Real.sqrt` of
the stored radicand `stdRad`. -/
theorem C2_stats_population (data : List Row) (c : String)
    (h : numericValues data c ≠ []) :
    ∃ s : Stats, calculateStats data c = some s ∧
      s.count = (numericValues data c).length ∧
      s.mean = (numericValues data c).sum / ((numericValues data c).length : ℚ) ∧
      s.min ∈ numericValues data c ∧
      (∀ x ∈ numericValues data c, s.min ≤ x) ∧
      s.max ∈ numericValues data c ∧
      (∀ x ∈ numericValues data c, x ≤ s.max) ∧
      s.stdRad =
        ((numericValues data c).map (fun x => (x - s.mean) ^ 2)).sum /
          ((numericValues data c).length : ℚ) ∧
      Real.sqrt s.stdRad =
        Real.sqrt ((((numericValues data c).map (fun x => (x - s.mean) ^ 2)).sum /
          ((numericValues data c).length : ℚ) : ℚ)) := by
  have hlen : ¬ (numericValues data c).length = 0 :=
    fun hh => h (List.length_eq_zero.mp hh)
  have key : calculateStats data c = some
      { count := (numericValues data c).length
        mean := (numericValues data c).foldl (· + ·) 0 /
          ((numericValues data c).length : ℚ)
        min := listMin (numericValues data c)
        max := listMax (numericValues data c)
        stdRad := ((numericValues data c).foldl (fun a b =>
            a + (b - (numericValues data c).foldl (· + ·) 0 /
              ((numericValues data c).length : ℚ)) ^ 2) 0) /
          ((numericValues data c).length : ℚ) } := by
    unfold calculateStats
    simp only [if_neg hlen]
  have hmean : (numericValues data c).foldl (· + ·) 0 /
      ((numericValues data c).length : ℚ) =
      (numericValues data c).sum / ((numericValues data c).length : ℚ) := by
    rw [foldl_add_eq_sum, zero_add]
  have hrad : ((numericValues data c).foldl (fun a b =>
        a + (b - (numericValues data c).foldl (· + ·) 0 /
          ((numericValues data c).length : ℚ)) ^ 2) 0) /
      ((numericValues data c).length : ℚ) =
      ((numericValues data c).map (fun x =>
        (x - (numericValues data c).foldl (· + ·) 0 /
          ((numericValues data c).length : ℚ)) ^ 2)).sum /
      ((numericValues data c).length : ℚ) := by
    rw [foldl_add_map (fun b =>
      (b - (numericValues data c).foldl (· + ·) 0 /
        ((numericValues data c).length : ℚ)) ^ 2) (numericValues data c) 0,
      zero_add]
  exact ⟨_, key, rfl, hmean, listMin_mem h, fun x hx => listMin_le hx,
    listMax_mem h, fun x hx => listMax_le hx, hrad, by rw [hrad]⟩

/-- C2 witness: the statistics property at a concrete two-row result set
with a numeric column. -/
theorem C2_stats_population_witness :
    numericValues [[("v", Value.num 1)], [("v", Value.num 3)]] "v" ≠ [] ∧
    (∃ s : Stats,
      calculateStats [[("v", Value.num 1)], [("v", Value.num 3)]] "v" = some s ∧
      s.count = (numericValues [[("v", Value.num 1)], [("v", Value.num 3)]] "v").length ∧
      s.mean = (numericValues [[("v", Value.num 1)], [("v", Value.num 3)]] "v").sum /
        ((numericValues [[("v", Value.num 1)], [("v", Value.num 3)]] "v").length : ℚ) ∧
      s.min ∈ numericValues [[("v", Value.num 1)], [("v", Value.num 3)]] "v" ∧
      (∀ x ∈ numericValues [[("v", Value.num 1)], [("v", Value.num 3)]] "v", s.min ≤ x) ∧
      s.max ∈ numericValues [[("v", Value.num 1)], [("v", Value.num 3)]] "v" ∧
      (∀ x ∈ numericValues [[("v", Value.num 1)], [("v", Value.num 3)]] "v", x ≤ s.max) ∧
      s.stdRad =
        ((numericValues [[("v", Value.num 1)], [("v", Value.num 3)]] "v").map
          (fun x => (x - s.mean) ^ 2)).sum /
          ((numericValues [[("v", Value.num 1)], [("v", Value.num 3)]] "v").length : ℚ) ∧
      Real.sqrt s.stdRad =
        Real.sqrt ((((numericValues [[("v", Value.num 1)], [("v", Value.num 3)]] "v").map
          (fun x => (x - s.mean) ^ 2)).sum /
          ((numericValues [[("v", Value.num 1)], [("v", Value.num 3)]] "v").length : ℚ) : ℚ))) :=
  ⟨by decide, C2_stats_population [[("v", Value.num 1)], [("v", Value.num 3)]] "v" (by decide)⟩

/-- Sanity: the demo branch for an uppercase variant of a demo key appends
the fixed messages and never calls the backend. -/
example :
    (DBC.handleQuery [] "Show ALL Employees" (.err none)).backendCalled = false := by
  decide

example : DBC.calculateStats [[("v", .num 1)], [("v", .num 3)]] "v" =
    some ⟨2, 2, 1, 3, 1⟩ := by
  simp [DBC.calculateStats, DBC.numericValues, DBC.getCol, DBC.listMin, DBC.listMax]
  norm_num

example : DBC.refersTo "salary" "What is the average salary?" = true := by decide

example : DBC.refersTo "salary" "Show all employees" = false := by decide

example : DBC.normalizeText "Show  all Employees " = "show all employees" := by decide
